import Mathlib

/-!
Verification of the JalaramOrder document-transformation pipeline (app.py).

The repository's single source file is a Streamlit front end. The real
pipeline module (automation_scripts) is imported with a fallback: when it is
absent the file installs demo stubs (auto_fill_supplier_order,
process_supplier_excel, convert_pdf_to_ecrs). The batch-conversion loop of
tab 3 and the zip packaging, however, are genuine code in the file and are
embedded below as written. Components that exist only outside the visible
source (the ECRS Encoder `encode` and the Column Mapper `mapColumns`) are
modelled from the specification; their doc comments say so explicitly.
-/

namespace JalaramOrder

/-- An uploaded PDF file: its name and raw content bytes. -/
structure PdfFile where
  name : String
  content : List Nat
deriving DecidableEq

/-- Embedding of the demo stub `convert_pdf_to_ecrs` (app.py lines 38-41):
it sleeps and then returns a fixed string, ignoring all three arguments. -/
def convert_pdf_to_ecrs (pdf_file : PdfFile) (store_id : String)
    (supplier_name : String) : String :=
  "INVOICE_DATA\nITEM1,10,100\nITEM2,5,200"

/-- Embedding of the demo stub `process_supplier_excel` (app.py lines 33-36):
returns a fixed two-row table, ignoring both arguments. Recorded here to
document that the visible repository holds no real Column Mapper. -/
def process_supplier_excel_demo (input_file : List (List String))
    (output_format : String) : List (String × List String) :=
  [("Item", ["Demo1", "Demo2"]), ("Quantity", ["10", "20"])]

/- ### ECRS Encoder (spec-modelled) -/

/-- Modelled from the spec: `EcrsFormatVariant` enum of §3. -/
inductive EcrsFormatVariant
  | Standard
  | WithTax
  | Itemized
deriving DecidableEq

/-- Modelled from the spec: a LineItem (§3). Decimal amounts are represented
as integer cents (two implied decimal places), so quantity 2 is 200 and unit
price 3.00 is 300. -/
structure LineItem where
  description : String
  sku : Option String := none
  quantity : Nat
  unitPrice : Nat
  taxFlag : Bool := false
  category : Option String := none
deriving DecidableEq

/-- Base-10 digit characters of `n`, most significant first, computed with
explicit fuel (`fuel = n + 1` always suffices). -/
def natDigitsAux (fuel : Nat) (n : Nat) : List Char :=
  match fuel with
  | 0 => []
  | fuel + 1 =>
    if n < 10 then [Nat.digitChar n]
    else natDigitsAux fuel (n / 10) ++ [Nat.digitChar (n % 10)]

def natToDigits (n : Nat) : List Char :=
  natDigitsAux (n + 1) n

/-- Modelled from the spec: fixed two-decimal-place rendering of an amount in
cents (`%.2f`-style): integer part, a dot, then exactly two digit characters.
No currency symbol and no thousands separator is ever produced. -/
def fmt2 (cents : Nat) : String :=
  String.mk (natToDigits (cents / 100)) ++ "." ++
    String.mk [Nat.digitChar (cents % 100 / 10), Nat.digitChar (cents % 100 % 10)]

/-- One Standard-variant record: `<description>,<quantity>,<unitPrice>` with a
terminating newline (§6). -/
def stdLine (it : LineItem) : String :=
  it.description ++ "," ++ fmt2 it.quantity ++ "," ++ fmt2 it.unitPrice ++ "\n"

/-- One WithTax-variant record: adds the `0|1` tax-flag column (§6). -/
def withTaxLine (it : LineItem) : String :=
  it.description ++ "," ++ fmt2 it.quantity ++ "," ++ fmt2 it.unitPrice ++ ","
    ++ (if it.taxFlag then "1" else "0") ++ "\n"

/-- Imperative-style accumulation of records into the output text, as an
encoder loop would build it. -/
def encodeLines (line : LineItem → String) (items : List LineItem) : String :=
  items.foldl (fun acc it => acc ++ line it) ""

/-- Categories in first-seen order (Itemized variant, §4.5). -/
def firstSeenCategories (items : List LineItem) : List String :=
  items.foldl
    (fun acc it =>
      let c := it.category.getD ""
      if c ∈ acc then acc else acc ++ [c]) []

/-- Itemized variant: a `#CATEGORY:` sub-header per distinct category in
first-seen order, each followed by that category's item lines (§4.5, §6). -/
def encodeItemized (items : List LineItem) : String :=
  (firstSeenCategories items).foldl
    (fun acc c =>
      acc ++ "#CATEGORY:" ++ c ++ "\n" ++
        encodeLines stdLine (items.filter (fun it => it.category.getD "" == c)))
    ""

/-- Modelled from the spec: the ECRS Encoder `encode` of §4.5 — absent from
the visible source, which only carries the demo stub `convert_pdf_to_ecrs`.
Pure and total; one encoded record per LineItem; variant selects the record
shape. Standard emits no header or trailer (§6 and the Milk scenario fix
its output bit-exactly). `storeId` and `supplierName` are accepted per the
spec signature but do not appear in Standard records. -/
def encode (items : List LineItem) (storeId supplierName : String)
    (variant : EcrsFormatVariant) : String :=
  match variant with
  | .Standard => encodeLines stdLine items
  | .WithTax => encodeLines withTaxLine items
  | .Itemized => encodeItemized items

/-- `s` is an integer part of digit characters, a dot, and exactly two digit
characters: the two-decimal numeric format with no currency symbol and no
thousands separator. -/
def TwoDecimalFormat (s : String) : Prop :=
  ∃ intDigits : List Char, ∃ d1 d2 : Char,
    s = String.mk intDigits ++ "." ++ String.mk [d1, d2] ∧
    (∀ c ∈ intDigits, c.isDigit = true) ∧
    d1.isDigit = true ∧ d2.isDigit = true

theorem digitChar_isDigit {d : Nat} (h : d < 10) :
    (Nat.digitChar d).isDigit = true := by
  interval_cases d <;> decide

theorem natDigitsAux_digits (fuel : Nat) :
    ∀ n : Nat, ∀ c ∈ natDigitsAux fuel n, c.isDigit = true := by
  induction fuel with
  | zero => intro n c hc; simp [natDigitsAux] at hc
  | succ fuel ih =>
    intro n c hc
    by_cases h : n < 10
    · simp [natDigitsAux, h] at hc
      subst hc
      exact digitChar_isDigit h
    · simp [natDigitsAux, h] at hc
      rcases hc with hc | hc
      · exact ih (n / 10) c hc
      · subst hc
        exact digitChar_isDigit (Nat.mod_lt _ (by omega))

theorem fmt2_twoDecimalFormat (n : Nat) : TwoDecimalFormat (fmt2 n) := by
  refine ⟨natToDigits (n / 100), Nat.digitChar (n % 100 / 10),
    Nat.digitChar (n % 100 % 10), rfl, ?_, ?_, ?_⟩
  · exact natDigitsAux_digits _ _
  · exact digitChar_isDigit (by omega)
  · exact digitChar_isDigit (Nat.mod_lt _ (by omega))

theorem encodeLines_eq_join (line : LineItem → String) (items : List LineItem) :
    encodeLines line items = String.join (items.map line) := by
  simp [encodeLines, String.join, List.foldl_map]

/-- The single line item of the spec's Standard-variant scenario:
description "Milk", quantity 2 (= 200 cents), unit price 3.00 (= 300 cents). -/
def milkItem : LineItem :=
  { description := "Milk", quantity := 200, unitPrice := 300 }

/-- C1: Standard-variant ECRS encoding emits exactly one record per line item,
each of the form `<description>,<quantity>,<unitPrice>` terminated by a
newline, with both numeric fields in two-decimal format (no currency symbols,
no thousands separators); in particular the Milk scenario produces exactly
"Milk,2.00,3.00\n". -/
theorem c1_ecrs_standard_encoding :
    (∀ (items : List LineItem) (storeId supplierName : String),
        encode items storeId supplierName EcrsFormatVariant.Standard =
          String.join (items.map stdLine)) ∧
    (∀ it : LineItem,
        stdLine it =
          it.description ++ "," ++ fmt2 it.quantity ++ "," ++ fmt2 it.unitPrice
            ++ "\n") ∧
    (∀ n : Nat, TwoDecimalFormat (fmt2 n)) ∧
    encode [milkItem] "STORE001" "Supplier A" EcrsFormatVariant.Standard =
      "Milk,2.00,3.00\n" := by
  refine ⟨?_, ?_, ?_, ?_⟩
  · intro items storeId supplierName
    exact encodeLines_eq_join stdLine items
  · intro it; rfl
  · exact fmt2_twoDecimalFormat
  · rfl

/-- C7: the document-to-ECRS conversion of the source (the demo stub, the
only `convert_pdf_to_ecrs` in the repository) is deterministic — two calls
with identical document, store id, and supplier name return byte-identical
text. The embedded function is pure: the source consults no randomness and
no external state (its `time.sleep` only delays). -/
theorem c7_convert_deterministic (p1 p2 : PdfFile) (s1 s2 n1 n2 : String)
    (hp : p1 = p2) (hs : s1 = s2) (hn : n1 = n2) :
    convert_pdf_to_ecrs p1 s1 n1 = convert_pdf_to_ecrs p2 s2 n2 := by
  subst hp; subst hs; subst hn; rfl

theorem c7_convert_deterministic_witness :
    convert_pdf_to_ecrs ⟨"a.pdf", [0]⟩ "STORE001" "Supplier A" =
      convert_pdf_to_ecrs ⟨"a.pdf", [0]⟩ "STORE001" "Supplier A" :=
  c7_convert_deterministic ⟨"a.pdf", [0]⟩ ⟨"a.pdf", [0]⟩ "STORE001" "STORE001"
    "Supplier A" "Supplier A" rfl rfl rfl

/-- C9: in demo mode the conversion output is completely independent of all
inputs — every call returns the same constant string, so the output reveals
nothing about the invoice document's contents. -/
theorem c9_demo_output_constant :
    ∀ (p p' : PdfFile) (s s' n n' : String),
      convert_pdf_to_ecrs p s n = "INVOICE_DATA\nITEM1,10,100\nITEM2,5,200" ∧
      convert_pdf_to_ecrs p s n = convert_pdf_to_ecrs p' s' n' := by
  intro p p' s s' n n'
  exact ⟨rfl, rfl⟩

/- ### Column Mapper (spec-modelled) -/

/-- Modelled from the spec: the closed `CanonicalField` enum of §3. -/
inductive CanonicalField
  | ItemName
  | Quantity
  | Price
  | SKU
  | Unit
  | Ignore
deriving DecidableEq

/-- A raw input table: header column names and rows of cells, each row's
cells aligned positionally with the columns. -/
structure RawTable where
  name : String
  columns : List String
  rows : List (List String)
deriving DecidableEq

/-- Modelled from the spec: a CanonicalRow (§3) with optional fields and the
row-level coercion errors attached to it (§4.2). -/
structure CanonicalRow where
  itemName : Option String := none
  quantity : Option Nat := none
  price : Option Nat := none
  sku : Option String := none
  unit : Option String := none
  coercionErrors : List CanonicalField := []
deriving DecidableEq

/-- Modelled from the spec: a CanonicalTable (§3), carrying source identity. -/
structure CanonicalTable where
  sourceName : String
  rows : List CanonicalRow
deriving DecidableEq

/-- Modelled from the spec: the `ValidationError` cases of §4.2. -/
inductive ValidationError
  | UnknownColumn (column : String)
  | DuplicateMapping (field : CanonicalField)
deriving DecidableEq

/-- Numeric value of a digit character. -/
def charDigit (c : Char) : Nat := c.toNat - 48

def digitsVal (cs : List Char) : Nat :=
  cs.foldl (fun a c => a * 10 + charDigit c) 0

/-- Parse a nonempty all-digit character list. -/
def parseDigits (cs : List Char) : Option Nat :=
  if cs ≠ [] ∧ (∀ c ∈ cs, c.isDigit = true) then some (digitsVal cs) else none

/-- Value in cents of a fractional part of at most two digit characters. -/
def fracCents (cs : List Char) : Nat :=
  digitsVal cs * (if cs.length = 1 then 10 else 1)

/-- Modelled from the spec: numeric parse of a Quantity/Price cell into
cents (§4.2): optional integer part, optional dot with one or two fractional
digits; anything else fails. -/
def parseDecimal (s : String) : Option Nat :=
  match s.toList.span (fun c => decide (c ≠ '.')) with
  | (intPart, []) => (parseDigits intPart).map (fun w => w * 100)
  | (intPart, _dot :: fracPart) =>
    if fracPart ≠ [] ∧ fracPart.length ≤ 2 ∧ (∀ c ∈ fracPart, c.isDigit = true)
    then (parseDigits intPart).map (fun w => w * 100 + fracCents fracPart)
    else none

/-- First non-Ignore canonical field that two mapping entries share, if any
(the duplicate-target validation of §4.2, run before any row is touched). -/
def findDuplicateTarget : List (String × CanonicalField) → Option CanonicalField
  | [] => none
  | (_, f) :: rest =>
    if f ≠ CanonicalField.Ignore ∧ (∃ q ∈ rest, q.2 = f) then some f
    else findDuplicateTarget rest

/-- First mapping key that is not a column of the table, if any (§4.2). -/
def findUnknownColumn (columns : List String) :
    List (String × CanonicalField) → Option String
  | [] => none
  | (c, _) :: rest =>
    if c ∈ columns then findUnknownColumn columns rest else some c

/-- Cell of `row` under column `c`. -/
def lookupCell (columns : List String) (row : List String) (c : String) :
    Option String :=
  match columns.indexOf? c with
  | some i => row.get? i
  | none => none

/-- Write one mapped cell into a canonical row; failed numeric coercion is
attached to the row as a CoercionError, the field stays unset (§4.2). -/
def setField (r : CanonicalRow) (f : CanonicalField) (cell : String) :
    CanonicalRow :=
  match f with
  | .ItemName => { r with itemName := some cell }
  | .SKU => { r with sku := some cell }
  | .Unit => { r with unit := some cell }
  | .Quantity =>
    match parseDecimal cell with
    | some q => { r with quantity := some q }
    | none => { r with coercionErrors := r.coercionErrors ++ [.Quantity] }
  | .Price =>
    match parseDecimal cell with
    | some p => { r with price := some p }
    | none => { r with coercionErrors := r.coercionErrors ++ [.Price] }
  | .Ignore => r

/-- Map one raw row through the column mapping. -/
def mapRow (mapping : List (String × CanonicalField)) (columns : List String)
    (row : List String) : CanonicalRow :=
  mapping.foldl
    (fun r p =>
      match lookupCell columns row p.1 with
      | some cell => setField r p.2 cell
      | none => r)
    {}

/-- Modelled from the spec: `mapColumns` of §4.2, the Column Mapper — absent
from the visible source, whose `process_supplier_excel` is a demo stub that
ignores its input and whose tab-2 mapping dict is collected but never
validated or applied. Configuration validation (duplicate targets first,
then unknown columns) runs before any row is processed; on success every
input row is mapped and retained in order. -/
def mapColumns (table : RawTable) (mapping : List (String × CanonicalField)) :
    Except ValidationError CanonicalTable :=
  match findDuplicateTarget mapping with
  | some f => .error (.DuplicateMapping f)
  | none =>
    match findUnknownColumn table.columns mapping with
    | some c => .error (.UnknownColumn c)
    | none => .ok ⟨table.name, table.rows.map (mapRow mapping table.columns)⟩

theorem findDuplicateTarget_eq_none
    (mapping : List (String × CanonicalField))
    (hdup : mapping.Pairwise
      (fun p q => p.2 = q.2 → p.2 = CanonicalField.Ignore)) :
    findDuplicateTarget mapping = none := by
  induction mapping with
  | nil => rfl
  | cons p rest ih =>
    rcases hdup with _ | ⟨hhead, htail⟩
    rw [findDuplicateTarget]
    have hcond : ¬ (p.2 ≠ CanonicalField.Ignore ∧ ∃ q ∈ rest, q.2 = p.2) := by
      rintro ⟨hne, q, hq, hq2⟩
      exact hne (hhead q hq hq2.symm)
    rw [if_neg hcond]
    exact ih htail

theorem findUnknownColumn_eq_none (columns : List String)
    (mapping : List (String × CanonicalField))
    (hcols : ∀ p ∈ mapping, p.1 ∈ columns) :
    findUnknownColumn columns mapping = none := by
  induction mapping with
  | nil => rfl
  | cons p rest ih =>
    rw [findUnknownColumn, if_pos (hcols p (List.mem_cons_self p rest))]
    exact ih (fun q hq => hcols q (List.mem_cons_of_mem p hq))

theorem findDuplicateTarget_spec (mapping : List (String × CanonicalField))
    (g : CanonicalField) (h : findDuplicateTarget mapping = some g) :
    g ≠ CanonicalField.Ignore ∧
      2 ≤ mapping.countP (fun p => decide (p.2 = g)) := by
  induction mapping with
  | nil => simp [findDuplicateTarget] at h
  | cons p rest ih =>
    rw [findDuplicateTarget] at h
    by_cases hc : p.2 ≠ CanonicalField.Ignore ∧ ∃ q ∈ rest, q.2 = p.2
    · rw [if_pos hc] at h
      obtain ⟨hne, q, hq, hq2⟩ := hc
      obtain rfl : p.2 = g := by injection h
      refine ⟨hne, ?_⟩
      have hpos : 0 < rest.countP (fun r => decide (r.2 = p.2)) :=
        List.countP_pos_iff.mpr ⟨q, hq, by simpa using hq2⟩
      rw [List.countP_cons_of_pos]
      · omega
      · simp
    · rw [if_neg hc] at h
      obtain ⟨hg, hcount⟩ := ih h
      refine ⟨hg, ?_⟩
      rw [List.countP_cons]
      omega

theorem findDuplicateTarget_isSome (mapping : List (String × CanonicalField))
    (c1 c2 : String) (f : CanonicalField)
    (h1 : (c1, f) ∈ mapping) (h2 : (c2, f) ∈ mapping)
    (hne : c1 ≠ c2) (hf : f ≠ CanonicalField.Ignore) :
    ∃ g, findDuplicateTarget mapping = some g := by
  induction mapping with
  | nil => simp at h1
  | cons p rest ih =>
    rw [findDuplicateTarget]
    by_cases hc : p.2 ≠ CanonicalField.Ignore ∧ ∃ q ∈ rest, q.2 = p.2
    · exact ⟨p.2, by rw [if_pos hc]⟩
    · rw [if_neg hc]
      rcases List.mem_cons.mp h1 with hp1 | hr1


      · rcases List.mem_cons.mp h2 with hp2 | hr2
        · exact absurd (congrArg Prod.fst (hp1.trans hp2.symm)) hne
        · exact absurd ⟨by rw [← hp1]; exact hf, (c2, f), hr2, by rw [← hp1]⟩ hc
      · rcases List.mem_cons.mp h2 with hp2 | hr2
        · exact absurd ⟨by rw [← hp2]; exact hf, (c1, f), hr1, by rw [← hp2]⟩ hc
        · exact ih hr1 hr2

/-- C5: for every input table and every valid column mapping (all keys are
columns of the table) with no duplicate non-Ignore target fields,
`mapColumns` succeeds and the canonical table has exactly as many rows as
the input table — rows with coercion failures are retained, not dropped. -/
theorem c5_mapColumns_preserves_row_count (table : RawTable)
    (mapping : List (String × CanonicalField))
    (hdup : mapping.Pairwise
      (fun p q => p.2 = q.2 → p.2 = CanonicalField.Ignore))
    (hcols : ∀ p ∈ mapping, p.1 ∈ table.columns) :
    ∃ out : CanonicalTable, mapColumns table mapping = .ok out ∧
      out.rows.length = table.rows.length := by
  refine ⟨⟨table.name, table.rows.map (mapRow mapping table.columns)⟩, ?_, ?_⟩
  · rw [mapColumns, findDuplicateTarget_eq_none mapping hdup,
      findUnknownColumn_eq_none table.columns mapping hcols]
  · exact List.length_map _ _

theorem c5_mapColumns_preserves_row_count_witness :
    ∃ out : CanonicalTable,
      mapColumns
        ⟨"suppliers.xlsx", ["Item", "Qty"],
          [["Apple", "10"], ["Banana", "bad"]]⟩
        [("Item", CanonicalField.ItemName), ("Qty", CanonicalField.Quantity)] =
        .ok out ∧
      out.rows.length =
        (⟨"suppliers.xlsx", ["Item", "Qty"],
          [["Apple", "10"], ["Banana", "bad"]]⟩ : RawTable).rows.length :=
  c5_mapColumns_preserves_row_count
    ⟨"suppliers.xlsx", ["Item", "Qty"], [["Apple", "10"], ["Banana", "bad"]]⟩
    [("Item", CanonicalField.ItemName), ("Qty", CanonicalField.Quantity)]
    (by decide) (by decide)

/-- C6: whenever two distinct source columns are mapped to the same
non-Ignore canonical field, `mapColumns` returns a `DuplicateMapping` error
naming a genuinely duplicated non-Ignore field — and it does so for every
table, i.e. before (and independent of) any row processing. -/
theorem c6_duplicate_mapping_rejected
    (mapping : List (String × CanonicalField)) (c1 c2 : String)
    (f : CanonicalField)
    (h1 : (c1, f) ∈ mapping) (h2 : (c2, f) ∈ mapping)
    (hne : c1 ≠ c2) (hf : f ≠ CanonicalField.Ignore) :
    ∃ g : CanonicalField, g ≠ CanonicalField.Ignore ∧
      2 ≤ mapping.countP (fun p => decide (p.2 = g)) ∧
      ∀ table : RawTable,
        mapColumns table mapping = .error (.DuplicateMapping g) := by
  obtain ⟨g, hg⟩ := findDuplicateTarget_isSome mapping c1 c2 f h1 h2 hne hf
  obtain ⟨hgne, hgcount⟩ := findDuplicateTarget_spec mapping g hg
  refine ⟨g, hgne, hgcount, fun table => ?_⟩
  rw [mapColumns, hg]

theorem c6_duplicate_mapping_rejected_witness :
    ∃ g : CanonicalField, g ≠ CanonicalField.Ignore ∧
      2 ≤ ([("A", CanonicalField.Quantity),
            ("B", CanonicalField.Quantity)]).countP
            (fun p => decide (p.2 = g)) ∧
      ∀ table : RawTable,
        mapColumns table
          [("A", CanonicalField.Quantity), ("B", CanonicalField.Quantity)] =
          .error (.DuplicateMapping g) :=
  c6_duplicate_mapping_rejected
    [("A", CanonicalField.Quantity), ("B", CanonicalField.Quantity)]
    "A" "B" CanonicalField.Quantity (by decide) (by decide) (by decide)
    (by decide)

/- ### Batch conversion loop and zip packaging (tab 3, app.py lines 359-393) -/

/-- The state the tab-3 batch loop threads: the `results` list of
(filename, content) pairs and, for the progress bar, the sequence of values
passed to `progress_bar.progress` in order of emission. -/
structure BatchState where
  results : List (String × String)
  progress : List ℚ

/-- The `(name, content)` pair the loop appends for one document: the
converted text on success, or `"ERROR: "` followed by the exception message
when `convert_pdf_to_ecrs` raises (the `try`/`except` of lines 365-373).
The conversion callee is abstracted as an `Except`-valued function since the
loop is the same for the demo stub (which never raises) and a real module. -/
def batchEntry (convert : PdfFile → Except String String) (pdf_file : PdfFile) :
    String × String :=
  match convert pdf_file with
  | Except.ok txt => (pdf_file.name, txt)
  | Except.error e => (pdf_file.name, "ERROR: " ++ e)

/-- The `for i, pdf_file in enumerate(multiple_files)` loop body (lines
364-375): append the entry for the current file, then emit
`(i + 1) / len(multiple_files)` to the progress bar. -/
def tab3Loop (convert : PdfFile → Except String String) (n : Nat) :
    Nat → List PdfFile → BatchState → BatchState
  | _, [], st => st
  | i, d :: rest, st =>
    tab3Loop convert n (i + 1) rest
      ⟨st.results ++ [batchEntry convert d],
       st.progress ++ [(((i + 1 : Nat) : ℚ)) / ((n : Nat) : ℚ)]⟩

/-- The whole tab-3 batch run: empty results, index from 0,
denominator `len(multiple_files)`. -/
def runTab3Batch (convert : PdfFile → Except String String)
    (files : List PdfFile) : BatchState :=
  tab3Loop convert files.length 0 files ⟨[], []⟩

/-- Embedding of `filename.replace('.pdf', '.txt')` (line 386): Python
`str.replace` rewrites every non-overlapping occurrence left to right. -/
def replaceDotPdf : List Char → List Char
  | '.' :: 'p' :: 'd' :: 'f' :: rest => '.' :: 't' :: 'x' :: 't' :: replaceDotPdf rest
  | c :: rest => c :: replaceDotPdf rest
  | [] => []

def pyReplacePdfTxt (s : String) : String :=
  String.mk (replaceDotPdf s.data)

/-- The zip packaging of lines 383-386: one `writestr` per element of
`results`, entry name `filename.replace('.pdf', '.txt')`, entry content
unchanged. -/
def zipEntries (results : List (String × String)) : List (String × String) :=
  results.map (fun p => (pyReplacePdfTxt p.1, p.2))

/-- Modelled from the spec: `BatchResult.succeeded` (§3, §4.7) — the
successful outputs only, in input order. Used to compare the archive the
code actually builds against the succeeded-only contract the spec states. -/
def specSucceeded (convert : PdfFile → Except String String)
    (files : List PdfFile) : List (String × String) :=
  files.filterMap (fun d =>
    match convert d with
    | Except.ok txt => some (d.name, txt)
    | Except.error _ => none)

/-- Modelled from the spec: entry naming of §6 — the source document's base
name with its (final) extension replaced by `.txt`. -/
def dropLastExt (cs : List Char) : List Char :=
  match cs.reverse.dropWhile (fun c => decide (c ≠ '.')) with
  | [] => cs
  | _ :: rest => rest.reverse

def specEntryName (s : String) : String :=
  String.mk (dropLastExt s.data) ++ ".txt"

theorem tab3Loop_results (convert : PdfFile → Except String String) (n : Nat) :
    ∀ (files : List PdfFile) (i : Nat) (st : BatchState),
      (tab3Loop convert n i files st).results =
        st.results ++ files.map (batchEntry convert) := by
  intro files
  induction files with
  | nil => intro i st; simp [tab3Loop]
  | cons d rest ih =>
    intro i st
    rw [tab3Loop, ih]
    simp

theorem tab3Loop_progress (convert : PdfFile → Except String String) (n : Nat) :
    ∀ (files : List PdfFile) (i : Nat) (st : BatchState),
      (tab3Loop convert n i files st).progress =
        st.progress ++
          (List.range' (i + 1) files.length).map
            (fun m : Nat => ((m : ℚ)) / ((n : Nat) : ℚ)) := by
  intro files
  induction files with
  | nil => intro i st; simp [tab3Loop]
  | cons d rest ih =>
    intro i st
    rw [tab3Loop, ih]
    simp only [List.length_cons, List.range'_succ, List.map_cons]
    simp

theorem runTab3Batch_results (convert : PdfFile → Except String String)
    (files : List PdfFile) :
    (runTab3Batch convert files).results = files.map (batchEntry convert) := by
  rw [runTab3Batch, tab3Loop_results]
  rfl

theorem runTab3Batch_progress (convert : PdfFile → Except String String)
    (files : List PdfFile) :
    (runTab3Batch convert files).progress =
      (List.range' 1 files.length).map
        (fun m : Nat => ((m : ℚ)) / ((files.length : Nat) : ℚ)) := by
  rw [runTab3Batch, tab3Loop_progress]
  rfl

/-- C3: a conversion error on one document is caught and recorded as that
document's `"ERROR: "` entry, and the documents after it are processed
exactly as they would be on their own — the failure neither aborts nor
alters the processing of the rest of the sequence. -/
theorem c3_batch_failure_isolated (convert : PdfFile → Except String String)
    (pre suf : List PdfFile) (d : PdfFile) (e : String)
    (h : convert d = Except.error e) :
    (runTab3Batch convert (pre ++ d :: suf)).results =
      (runTab3Batch convert pre).results ++
        (d.name, "ERROR: " ++ e) :: (runTab3Batch convert suf).results := by
  rw [runTab3Batch_results, runTab3Batch_results, runTab3Batch_results,
    List.map_append, List.map_cons]
  rw [show batchEntry convert d = (d.name, "ERROR: " ++ e) by
    rw [batchEntry, h]]

theorem batchEntry_fst (convert : PdfFile → Except String String)
    (d : PdfFile) : (batchEntry convert d).1 = d.name := by
  rw [batchEntry]
  cases convert d <;> rfl

/-- A conversion function for concrete scenarios: raises (returns an error)
exactly on the document with the given name. -/
def convFailOn (badName : String) (d : PdfFile) : Except String String :=
  if d.name = badName then Except.error "corrupt stream"
  else Except.ok ("OK:" ++ d.name)

def doc1 : PdfFile := ⟨"doc1.pdf", [1]⟩
def doc2 : PdfFile := ⟨"doc2.pdf", [2]⟩
def doc3 : PdfFile := ⟨"doc3.pdf", [3]⟩
def docDouble : PdfFile := ⟨"scan.pdf.pdf", [4]⟩

theorem c3_batch_failure_isolated_witness :
    (runTab3Batch (convFailOn "doc2.pdf") ([doc1] ++ doc2 :: [doc3])).results =
      (runTab3Batch (convFailOn "doc2.pdf") [doc1]).results ++
        ("doc2.pdf", "ERROR: " ++ "corrupt stream") ::
          (runTab3Batch (convFailOn "doc2.pdf") [doc3]).results :=
  c3_batch_failure_isolated (convFailOn "doc2.pdf") [doc1] [doc3] doc2
    "corrupt stream" rfl

/-- C2 counterexample: with 3 documents of which document 2 is corrupt, the
code does not return a result split into a 2-entry `succeeded` part and a
separate 1-entry `failed` part tagged `CorruptDocument`. It returns one
`results` sequence of 3 entries with document 2's failure mixed in between
the successes, marked only by an `"ERROR: "` content marker — so the
sequence differs from the succeeded-only sequence the claim describes. -/
theorem c2_counterexample :
    (runTab3Batch (convFailOn "doc2.pdf") [doc1, doc2, doc3]).results =
      [("doc1.pdf", "OK:doc1.pdf"), ("doc2.pdf", "ERROR: corrupt stream"),
        ("doc3.pdf", "OK:doc3.pdf")] ∧
    (runTab3Batch (convFailOn "doc2.pdf") [doc1, doc2, doc3]).results.length
      = 3 ∧
    specSucceeded (convFailOn "doc2.pdf") [doc1, doc2, doc3] =
      [("doc1.pdf", "OK:doc1.pdf"), ("doc3.pdf", "OK:doc3.pdf")] ∧
    (runTab3Batch (convFailOn "doc2.pdf") [doc1, doc2, doc3]).results ≠
      specSucceeded (convFailOn "doc2.pdf") [doc1, doc2, doc3] := by
  refine ⟨?_, ?_, ?_, ?_⟩ <;> decide

/-- C2 as amended: for 3 documents where document 2's conversion raises and
documents 1 and 3 convert successfully, the batch loop returns a single
results sequence of exactly 3 entries in input order — documents 1 and 3
with their converted text and document 2 with content `"ERROR: "` followed
by the message. The successfully converted documents are 1 and 3 in that
order, but they are not separated from the failure: there is no `failed`
part and no `CorruptDocument` kind in the code. -/
theorem c2_amended_batch_single_sequence
    (convert : PdfFile → Except String String) (d1 d2 d3 : PdfFile)
    (t1 t3 e : String)
    (h1 : convert d1 = Except.ok t1) (h2 : convert d2 = Except.error e)
    (h3 : convert d3 = Except.ok t3) :
    (runTab3Batch convert [d1, d2, d3]).results =
      [(d1.name, t1), (d2.name, "ERROR: " ++ e), (d3.name, t3)] ∧
    specSucceeded convert [d1, d2, d3] = [(d1.name, t1), (d3.name, t3)] := by
  constructor
  · rw [runTab3Batch_results]
    simp [batchEntry, h1, h2, h3]
  · simp [specSucceeded, h1, h2, h3]

theorem c2_amended_batch_single_sequence_witness :
    (runTab3Batch (convFailOn "doc2.pdf") [doc1, doc2, doc3]).results =
      [(doc1.name, "OK:doc1.pdf"), (doc2.name, "ERROR: " ++ "corrupt stream"),
        (doc3.name, "OK:doc3.pdf")] ∧
    specSucceeded (convFailOn "doc2.pdf") [doc1, doc2, doc3] =
      [(doc1.name, "OK:doc1.pdf"), (doc3.name, "OK:doc3.pdf")] :=
  c2_amended_batch_single_sequence (convFailOn "doc2.pdf") doc1 doc2 doc3
    "OK:doc1.pdf" "OK:doc3.pdf" "corrupt stream" rfl rfl rfl

/-- C4 counterexample: the archive is not 1:1 with the succeeded sequence
and entry names are not base-name-with-extension-replaced. With document
`scan.pdf.pdf` failing, the zip still gets an entry for it (2 entries for 1
success), and the entry is named `scan.txt.txt` — every occurrence of
`.pdf` replaced — not `scan.pdf.txt` as extension replacement would give. -/
theorem c4_counterexample :
    zipEntries (runTab3Batch (convFailOn "scan.pdf.pdf")
        [doc1, docDouble]).results =
      [("doc1.txt", "OK:doc1.pdf"), ("scan.txt.txt", "ERROR: corrupt stream")] ∧
    (specSucceeded (convFailOn "scan.pdf.pdf") [doc1, docDouble]).length = 1 ∧
    (zipEntries (runTab3Batch (convFailOn "scan.pdf.pdf")
        [doc1, docDouble]).results).length ≠
      (specSucceeded (convFailOn "scan.pdf.pdf") [doc1, docDouble]).length ∧
    specEntryName "scan.pdf.pdf" = "scan.pdf.txt" ∧
    pyReplacePdfTxt "scan.pdf.pdf" ≠ specEntryName "scan.pdf.pdf" := by
  refine ⟨?_, ?_, ?_, ?_, ?_⟩ <;> decide

/-- C4 as amended: the output archive contains exactly one entry per
processed document — including the failed ones, whose entry content is the
`"ERROR: "` string — in input order; each entry's name is the source
document's name with every occurrence of `.pdf` replaced by `.txt` (which
coincides with extension replacement for ordinary names containing `.pdf`
exactly once at the end). -/
theorem c4_amended_zip_one_entry_per_document
    (convert : PdfFile → Except String String) (files : List PdfFile) :
    zipEntries (runTab3Batch convert files).results =
      files.map (fun d =>
        (pyReplacePdfTxt d.name, (batchEntry convert d).2)) ∧
    (zipEntries (runTab3Batch convert files).results).length = files.length := by
  constructor
  · rw [zipEntries, runTab3Batch_results, List.map_map]
    apply List.map_congr_left
    intro d hd
    simp [Function.comp, batchEntry_fst]
  · rw [zipEntries, runTab3Batch_results, List.length_map, List.length_map]

/-- C8: the progress values emitted after each document during a batch run
are strictly increasing, and after the last document the bar reaches the
total (the fraction 1 = n/n). -/
theorem c8_progress_monotone (convert : PdfFile → Except String String)
    (files : List PdfFile) :
    (runTab3Batch convert files).progress.Pairwise (· < ·) ∧
    (files ≠ [] →
      (runTab3Batch convert files).progress.getLast? = some 1) := by
  constructor
  · rw [runTab3Batch_progress]
    rcases files with _ | ⟨d, rest⟩
    · simp
    · have hn : (0 : ℚ) < ((d :: rest).length : ℚ) := by
        exact_mod_cast Nat.succ_pos rest.length
      refine List.Pairwise.map _ ?_ (List.pairwise_lt_range' 1 _)
      intro a b hab
      rw [div_lt_div_iff_of_pos_right hn]
      exact_mod_cast hab
  · intro hne
    rw [runTab3Batch_progress, List.getLast?_map]
    rcases files with _ | ⟨d, rest⟩
    · exact absurd rfl hne
    · have hlast : (List.range' 1 (d :: rest).length).getLast? =
          some (d :: rest).length := by
        rw [List.getLast?_range', if_neg (by simp)]
        congr 1
        omega
      rw [hlast, Option.map_some']
      have hnz : ((((d :: rest).length : Nat)) : ℚ) ≠ 0 := by
        have h0 : (d :: rest).length ≠ 0 := Nat.succ_ne_zero rest.length
        exact_mod_cast h0
      rw [div_self hnz]

theorem c8_progress_monotone_witness :
    (runTab3Batch (convFailOn "doc2.pdf") [doc1, doc2]).progress.Pairwise
        (· < ·) ∧
    (runTab3Batch (convFailOn "doc2.pdf") [doc1, doc2]).progress.getLast? =
      some 1 :=
  ⟨(c8_progress_monotone (convFailOn "doc2.pdf") [doc1, doc2]).1,
    (c8_progress_monotone (convFailOn "doc2.pdf") [doc1, doc2]).2
      (by decide)⟩

/-- C10: the batch loop appends exactly one (filename, content) entry per
input document, in input order; a failed document's entry content is
`"ERROR: "` followed by the message; and the produced zip has exactly one
entry per input document, failed ones included. -/
theorem c10_one_entry_per_document (convert : PdfFile → Except String String)
    (files : List PdfFile) :
    (runTab3Batch convert files).results = files.map (batchEntry convert) ∧
    (runTab3Batch convert files).results.length = files.length ∧
    (zipEntries (runTab3Batch convert files).results).length = files.length ∧
    (∀ (d : PdfFile) (e : String), convert d = Except.error e →
      batchEntry convert d = (d.name, "ERROR: " ++ e)) := by
  refine ⟨runTab3Batch_results convert files, ?_, ?_, ?_⟩
  · rw [runTab3Batch_results, List.length_map]
  · rw [zipEntries, runTab3Batch_results, List.length_map, List.length_map]
  · intro d e he
    rw [batchEntry, he]

theorem c10_one_entry_per_document_witness :
    (runTab3Batch (convFailOn "doc2.pdf") [doc1, doc2]).results =
      [doc1, doc2].map (batchEntry (convFailOn "doc2.pdf")) ∧
    batchEntry (convFailOn "doc2.pdf") doc2 =
      ("doc2.pdf", "ERROR: " ++ "corrupt stream") :=
  ⟨(c10_one_entry_per_document (convFailOn "doc2.pdf") [doc1, doc2]).1,
    (c10_one_entry_per_document (convFailOn "doc2.pdf") [doc1, doc2]).2.2.2
      doc2 "corrupt stream" rfl⟩

end JalaramOrder
